import Mathlib

/-!
Verification of the deterministic core of a guide-sequence design and
off-target safety engine.  The Python sources are shallowly embedded:
nucleotide sequences are lists of characters, Python integers are `Int`
(or `Nat` where the source value is a count), Python slices are modelled
by `pySlice` with exact CPython clamping semantics, and code that can
raise an exception is modelled with `Option`.
-/

/-- Python semantics of an index appearing in a slice `l[a:b]`: negative
indices count from the end and everything is clamped into `[0, len]`. -/
def pyIdx (n : Nat) (i : Int) : Nat :=
  if i < 0 then (i + n).toNat else min i.toNat n

/-- Model of the Python slice `l[a:b]` (step 1). -/
def pySlice {α : Type} (l : List α) (a b : Int) : List α :=
  (l.take (pyIdx l.length b)).drop (pyIdx l.length a)

/-- Model of Python `range(a, b)` over `Int`. -/
def intRange (a b : Int) : List Int :=
  (List.range (b - a).toNat).map (fun k => a + Int.ofNat k)

/-- Model of Python `str.upper()` applied characterwise. -/
def upper (s : List Char) : List Char := s.map Char.toUpper

/- ======================================================================
   src/tools/engineer_tools.py
   ====================================================================== -/

/-- Complement table of `engineer_tools.reverse_complement`, which maps
A, T, C, G, N and lets every other character pass through unchanged
(Python `complement.get(base, base)`). -/
def complement_rc (c : Char) : Char :=
  if c = 'A' then 'T'
  else if c = 'T' then 'A'
  else if c = 'C' then 'G'
  else if c = 'G' then 'C'
  else if c = 'N' then 'N'
  else c

/-- Model of `engineer_tools.reverse_complement`: complement each symbol
of the reversed sequence. -/
def reverse_complement (seq : List Char) : List Char :=
  seq.reverse.map complement_rc

/-- Complement table used by `engineer_tools.get_hairpin_count`
(only A, T, C, G; `dict.get` yields `None` for any other character,
modelled as `none`). -/
def complement_eng (c : Char) : Option Char :=
  if c = 'A' then some 'T'
  else if c = 'T' then some 'A'
  else if c = 'C' then some 'G'
  else if c = 'G' then some 'C'
  else none

/-- Inner loop of `engineer_tools.get_hairpin_count`: walk inward from
position `i` for at most `fuel` steps, counting consecutive
complementary outer pairs and stopping at the first mismatch. -/
def hairpin_walk (s : List Char) : Nat → Nat → Nat
  | _, 0 => 0
  | i, fuel + 1 =>
    if complement_eng ((s.getD i ' ').toUpper) = some ((s.getD (s.length - 1 - i) ' ').toUpper) then
      1 + hairpin_walk s (i + 1) fuel
    else 0

/-- Model of `engineer_tools.get_hairpin_count`: counts consecutive
complementary nucleotides between the two ends, iterating
`for i in range(len(sequence) // 2)` and breaking at the first
non-complementary pair.  Note that the loop bound is half the sequence
length; there is no cap of 6 in this function. -/
def get_hairpin_count (sequence : List Char) : Nat :=
  hairpin_walk sequence 0 (sequence.length / 2)

/-- Model of `engineer_tools.calculate_gc_content`.  The Python source
divides by `len(sequence)` with no guard, so the call raises
`ZeroDivisionError` on an empty sequence; the failure is modelled as
`none`.  Counting is case-sensitive exactly as in the source. -/
def calculate_gc_content (sequence : List Char) : Option ℚ :=
  if sequence.length = 0 then none
  else
    let g_count := sequence.count 'G'
    let c_count := sequence.count 'C'
    some (((g_count : ℚ) + (c_count : ℚ)) / (sequence.length : ℚ) * 100)

/-- Result record of `engineer_tools.check_manufacturing`. -/
structure ManufacturabilitySafety where
  starts_with_g : Bool
  has_terminator : Bool
  hairpin_count : Nat
  last_nucleotide : Char
  deriving Repr, DecidableEq, Inhabited

/-- Model of `engineer_tools.check_manufacturing`.  The Python source
evaluates `sequence[-1]`, which raises `IndexError` on an empty
sequence; the failure is modelled as `none`. -/
def check_manufacturing (sequence : List Char) : Option ManufacturabilitySafety :=
  if sequence = [] then none
  else
    some { starts_with_g := decide ((upper sequence).take 1 = ['G'])
           has_terminator := decide (['T', 'T', 'T', 'T'] <:+: upper sequence)
           hairpin_count := get_hairpin_count sequence
           last_nucleotide := sequence.getLastD ' ' }

/-- Model of `engineer_tools.check_pam_constraints`.  Returns the pair
`(is_tryptophan, too_short_context)`. -/
def check_pam_constraints (dna_sequence : List Char) (pam_index : Int) : Bool × Bool :=
  let pam_seq := pySlice dna_sequence pam_index (pam_index + 3)
  let is_tryptophan := decide (pam_seq = ['T', 'G', 'G'])
  let cut_site := pam_index - 3
  let available_left := cut_site
  let available_right := (dna_sequence.length : Int) - cut_site
  (is_tryptophan, decide (available_left < 40 ∨ available_right < 40))

/-- Model of `engineer_tools.apply_modifications`: writes the corrective
base at the relative offset of the mutation and an `A` two positions
after the relative offset of the PAM, each skipped silently when out of
bounds. -/
def apply_modifications (seq_chars : List Char) (start_idx mut_idx pam_idx : Int)
    (target_base : Char) : List Char :=
  let rel_mut := mut_idx - start_idx
  let s1 :=
    if 0 ≤ rel_mut ∧ rel_mut < (seq_chars.length : Int) then
      seq_chars.set rel_mut.toNat target_base
    else seq_chars
  let rel_pam := pam_idx - start_idx
  if 0 ≤ rel_pam ∧ rel_pam < (seq_chars.length : Int) - 2 then
    s1.set (rel_pam + 2).toNat 'A'
  else s1

/-- Template candidate record of `engineer_tools.generate_candidates`. -/
structure TemplateCandidate where
  sequence : List Char
  left_arm_length : Int
  right_arm_length : Int
  hairpin_score : Nat
  deriving Repr, DecidableEq, Inhabited

/-- Model of `engineer_tools.generate_candidates`: slides a 120-symbol
window (`total_len = 120`, `max_shift = total_len // 2 - 40 = 20`,
`shift` ranging over `range(-max_shift, max_shift + 1)`) around the cut
site and builds one candidate per shift. -/
def generate_candidates (dna : List Char) (mut_idx pam_idx : Int)
    (target_base : Char) : List TemplateCandidate :=
  let cut_site := pam_idx - 3
  let total_len : Int := 120
  let max_shift : Int := total_len / 2 - 40
  (intRange (-max_shift) (max_shift + 1)).map (fun shift =>
    let left_arm := total_len / 2 + shift
    let right_arm := total_len / 2 - shift
    let start := cut_site - left_arm
    let stop := cut_site + right_arm
    let raw_seq := pySlice dna start stop
    let final_seq := apply_modifications raw_seq start mut_idx pam_idx target_base
    { sequence := final_seq
      left_arm_length := left_arm
      right_arm_length := right_arm
      hairpin_score := get_hairpin_count final_seq })

/-- Sort key relation used by `engineer_tools.generate_repair_template_options`:
Python `sorted` with `key = (hairpin_score, abs(left_arm_length - 60))`
compares the key tuples lexicographically, and `sorted` is stable. -/
def tplLE (a b : TemplateCandidate) : Prop :=
  a.hairpin_score < b.hairpin_score ∨
    (a.hairpin_score = b.hairpin_score ∧ |a.left_arm_length - 60| ≤ |b.left_arm_length - 60|)

instance : DecidableRel tplLE := fun a b => by
  unfold tplLE; infer_instance

instance : IsTotal TemplateCandidate tplLE where
  total a b := by
    unfold tplLE
    rcases Nat.lt_trichotomy a.hairpin_score b.hairpin_score with h | h | h
    · exact Or.inl (Or.inl h)
    · rcases le_total (|a.left_arm_length - 60|) (|b.left_arm_length - 60|) with h2 | h2
      · exact Or.inl (Or.inr ⟨h, h2⟩)
      · exact Or.inr (Or.inr ⟨h.symm, h2⟩)
    · exact Or.inr (Or.inl h)

instance : IsTrans TemplateCandidate tplLE where
  trans a b c hab hbc := by
    unfold tplLE at *
    rcases hab with h1 | ⟨e1, l1⟩
    · rcases hbc with h2 | ⟨e2, _⟩
      · exact Or.inl (h1.trans h2)
      · exact Or.inl (e2 ▸ h1)
    · rcases hbc with h2 | ⟨e2, l2⟩
      · exact Or.inl (e1 ▸ h2)
      · exact Or.inr ⟨e1.trans e2, l1.trans l2⟩

/-- Result record of `engineer_tools.generate_repair_template_options`. -/
structure RepairTemplateOptions where
  is_tryptophan : Bool
  too_short_context : Bool
  templates : List TemplateCandidate
  deriving Repr, DecidableEq

/-- Model of `engineer_tools.generate_repair_template_options`: returns
early with an empty template list when the PAM constraints fail,
otherwise ranks the generated candidates by
`(hairpin_score, abs(left_arm_length - 60))` with a stable sort and
keeps the first three. -/
def generate_repair_template_options (dna_sequence : List Char)
    (mutation_index pam_index : Int) (target_base : Char) : RepairTemplateOptions :=
  let flags := check_pam_constraints dna_sequence pam_index
  if flags.1 || flags.2 then
    { is_tryptophan := flags.1, too_short_context := flags.2, templates := [] }
  else
    let candidates := generate_candidates dna_sequence mutation_index pam_index target_base
    { is_tryptophan := false
      too_short_context := false
      templates := (List.insertionSort tplLE candidates).take 3 }

/-- Match predicate for one character class step of the pattern
`[ATGC]`. -/
def isACGT (c : Char) : Bool :=
  c = 'A' || c = 'T' || c = 'G' || c = 'C'

/-- Zero-width-lookahead match of `(?=([ATGC]GG))` at position `i`. -/
def matchNGG (s : List Char) (i : Nat) : Bool :=
  decide (i + 3 ≤ s.length) && isACGT (s.getD i ' ') &&
    (s.getD (i + 1) ' ' = 'G') && (s.getD (i + 2) ' ' = 'G')

/-- Zero-width-lookahead match of `(?=(CC[ATGC]))` at position `i`. -/
def matchCCN (s : List Char) (i : Nat) : Bool :=
  decide (i + 3 ≤ s.length) && (s.getD i ' ' = 'C') &&
    (s.getD (i + 1) ' ' = 'C') && isACGT (s.getD (i + 2) ' ')

/-- Motif candidate record of `engineer_tools.find_pam_sites`. -/
structure MotifCandidate where
  strand : String
  pam_sequence : List Char
  pam_start_index : Int
  cut_distance : Int
  spacer_sequence : List Char
  deriving Repr, DecidableEq, Inhabited

/-- Forward-strand pass of `engineer_tools.find_pam_sites`: one
candidate per overlapping `[ATGC]GG` match inside the search window,
in ascending position order (`re.finditer` yields matches left to
right). -/
def pam_forward_matches (dna_sequence : List Char) (mutation_index window_size : Int) :
    List MotifCandidate :=
  let start := max 0 (mutation_index - window_size)
  let stop := min (dna_sequence.length : Int) (mutation_index + window_size)
  let sub := pySlice dna_sequence start stop
  (List.range sub.length).filterMap (fun i =>
    if matchNGG sub i then
      let g := start + (i : Int)
      some { strand := "+"
             pam_sequence := (sub.drop i).take 3
             pam_start_index := g
             cut_distance := |g - 3 - mutation_index|
             spacer_sequence := pySlice dna_sequence (g - 20) g }
    else none)

/-- Reverse-strand pass of `engineer_tools.find_pam_sites`: one
candidate per overlapping `CC[ATGC]` match, in ascending position
order. -/
def pam_reverse_matches (dna_sequence : List Char) (mutation_index window_size : Int) :
    List MotifCandidate :=
  let start := max 0 (mutation_index - window_size)
  let stop := min (dna_sequence.length : Int) (mutation_index + window_size)
  let sub := pySlice dna_sequence start stop
  (List.range sub.length).filterMap (fun i =>
    if matchCCN sub i then
      let g := start + (i : Int)
      some { strand := "-"
             pam_sequence := (sub.drop i).take 3
             pam_start_index := g
             cut_distance := |g + 6 - mutation_index|
             spacer_sequence := reverse_complement (pySlice dna_sequence (g + 3) (g + 23)) }
    else none)

/-- Sort relation used by `engineer_tools.find_pam_sites`: Python
`sorted` with `key = cut_distance`, a stable sort. -/
def cdLE (a b : MotifCandidate) : Prop := a.cut_distance ≤ b.cut_distance

instance : DecidableRel cdLE := fun a b => by
  unfold cdLE; infer_instance

instance : IsTotal MotifCandidate cdLE where
  total a b := le_total a.cut_distance b.cut_distance

instance : IsTrans MotifCandidate cdLE where
  trans _ _ _ hab hbc := le_trans hab hbc

/-- Model of `engineer_tools.find_pam_sites`: both strand passes are
concatenated in discovery order (forward first), candidates farther
than 15 from the mutation are dropped, and the remainder is sorted by
`cut_distance` with a stable sort. -/
def find_pam_sites (dna_sequence : List Char) (mutation_index : Int)
    (window_size : Int := 20) : List MotifCandidate :=
  let candidates := pam_forward_matches dna_sequence mutation_index window_size ++
    pam_reverse_matches dna_sequence mutation_index window_size
  let valid_candidates := candidates.filter (fun c => decide (c.cut_distance ≤ 15))
  List.insertionSort cdLE valid_candidates

/- ======================================================================
   src/tools/regulator_tools.py
   ====================================================================== -/

/-- Keys of the `ESSENTIAL_GENES` dictionary of `regulator_tools`.  Only
key membership is consulted by the functions modelled here. -/
def ESSENTIAL_GENES : List String :=
  ["TP53", "BRCA1", "BRCA2", "TTN", "MYH7", "SCN5A", "CFTR", "DMD", "PTEN", "HBB", "HBD"]

/-- Model of `regulator_tools.count_mismatches`: Hamming distance for
equal lengths, otherwise the larger length. -/
def count_mismatches (seq1 seq2 : List Char) : Nat :=
  if seq1.length ≠ seq2.length then max seq1.length seq2.length
  else (seq1.zip seq2).countP (fun p => p.1 ≠ p.2)

/-- Annotated genomic region built by
`regulator_tools.annotate_genome_regions`. -/
structure Region where
  start : Nat
  stop : Nat
  gene : String
  rtype : String
  description : String
  deriving Repr, DecidableEq

/-- Projection of a region returned by
`regulator_tools.get_region_at_position` (the callers only read the
`gene`, `type` and `description` keys, and the fallback dictionary has
no `start` and `end` keys). -/
structure RegionInfo where
  gene : String
  rtype : String
  description : String
  deriving Repr, DecidableEq

/-- Model of `regulator_tools.annotate_genome_regions`: a fixed tiling
of the genome into at most four half-open regions. -/
def annotate_genome_regions (genome : List Char) : List Region :=
  let genome_len := genome.length
  [⟨0, min 500 genome_len, "HBB", "EXON", "Beta-globin gene - oxygen transport"⟩] ++
  (if 500 < genome_len then
     [⟨500, min 1000 genome_len, "HBD", "EXON", "Delta-globin - HBB paralog"⟩] else []) ++
  (if 1000 < genome_len then
     [⟨1000, min 2000 genome_len, "INTERGENIC_1", "INTERGENIC", "Non-coding region"⟩] else []) ++
  (if 2000 < genome_len then
     [⟨2000, genome_len, "INTERGENIC_2", "INTERGENIC", "Non-coding region"⟩] else [])

/-- Model of `regulator_tools.get_region_at_position`: first region with
`start <= position < end` wins, otherwise the documented
Unknown/INTERGENIC fallback. -/
def get_region_at_position (position : Int) (regions : List Region) : RegionInfo :=
  match regions.find? (fun r => decide ((r.start : Int) ≤ position ∧ position < (r.stop : Int))) with
  | some r => ⟨r.gene, r.rtype, r.description⟩
  | none => ⟨"UNKNOWN", "INTERGENIC", "Unknown region"⟩

/-- Off-target hit record emitted by
`regulator_tools.blast_genome_search`. -/
structure OffTargetHit where
  location : String
  gene_name : String
  region_type : String
  mismatch_count : Nat
  sequence : List Char
  is_essential : Bool
  description : String
  deriving Repr, DecidableEq, Inhabited

/-- Qualification test of one window position inside
`regulator_tools.blast_genome_search`: the mismatch count of the window
starting at `i` is at most `max_mismatches`. -/
def blast_qual (grna_upper genome_upper : List Char) (max_mismatches : Int) (i : Nat) : Bool :=
  decide ((count_mismatches grna_upper ((genome_upper.drop i).take grna_upper.length) : Int)
    ≤ max_mismatches)

/-- Hit record built for a qualifying window position inside
`regulator_tools.blast_genome_search`. -/
def blast_mk (grna_upper genome_upper : List Char) (regions : List Region) (i : Nat) :
    OffTargetHit :=
  let window := (genome_upper.drop i).take grna_upper.length
  let region_info := get_region_at_position (i : Int) regions
  { location := "Position " ++ toString i
    gene_name := region_info.gene
    region_type := region_info.rtype
    mismatch_count := count_mismatches grna_upper window
    sequence := window
    is_essential := ESSENTIAL_GENES.contains region_info.gene
    description := region_info.description }

/-- Model of `regulator_tools.blast_genome_search`: slides a window of
the guide length across the genome (positions
`range(len(genome) - len(grna) + 1)`, which is empty when the guide is
longer than the genome) and emits one hit per position whose mismatch
count stays within the threshold.  Both sequences are uppercased
first. -/
def blast_genome_search (grna_sequence genome_sequence : List Char)
    (max_mismatches : Int := 3) : List OffTargetHit :=
  let grna_upper := upper grna_sequence
  let genome_upper := upper genome_sequence
  let regions := annotate_genome_regions genome_upper
  (List.range (genome_upper.length + 1 - grna_upper.length)).filterMap (fun i =>
    if blast_qual grna_upper genome_upper max_mismatches i then
      some (blast_mk grna_upper genome_upper regions i)
    else none)

/-- Result record of `regulator_tools.verify_pam_shield`.  The Python
branches return dictionaries with different key sets; the optional keys
are modelled with a default of an empty list or empty string on the
branches that omit them. -/
structure ShieldResult where
  status : String
  details : String
  active_pams : List (List Char)
  shielded_pams : List (List Char)
  risk : String
  deriving Repr, DecidableEq

/-- Model of `re.finditer` for a three-character pattern: scan left to
right, emit each non-overlapping match and resume after it. -/
def find3 (p : Char → Char → Char → Bool) : List Char → List (List Char)
  | a :: b :: c :: rest =>
    if p a b c then [a, b, c] :: find3 p rest
    else find3 p (b :: c :: rest)
  | _ => []
termination_by l => l.length

/-- Character test of the pattern `[ATGC]GG`. -/
def isNGG (a b c : Char) : Bool := isACGT a && b = 'G' && c = 'G'

/-- Character test of the pattern `[ATGC]G[ATC]`. -/
def isNGH (a b c : Char) : Bool := isACGT a && b = 'G' && (c = 'A' || c = 'T' || c = 'C')

/-- Model of `regulator_tools.verify_pam_shield`.  The guard
`not repair_template or pam_index is None` yields the undocumented
status N/A; otherwise the template is classified as UNSHIELDED when an
active `NGG` pattern remains, VERIFIED when only a mutated `NG[ATC]`
pattern is found, and UNCLEAR when neither occurs.  The function is
total: no input raises. -/
def verify_pam_shield (repair_template : List Char) (pam_index : Option Int)
    (mutation_index : Int) : ShieldResult :=
  if repair_template = [] ∨ pam_index = none then
    { status := "N/A"
      details := "Insufficient information for PAM verification"
      active_pams := [], shielded_pams := [], risk := "" }
  else
    let tmpl := upper repair_template
    let active_pams := find3 isNGG tmpl
    let shielded_pams := find3 isNGH tmpl
    if active_pams ≠ [] then
      { status := "UNSHIELDED"
        details := "Found " ++ toString active_pams.length ++ " active PAM site(s) in repair template"
        active_pams := active_pams, shielded_pams := [], risk := "CRITICAL" }
    else if shielded_pams ≠ [] then
      { status := "VERIFIED"
        details := "PAM has been properly mutated to prevent re-cutting"
        active_pams := [], shielded_pams := shielded_pams, risk := "NONE" }
    else
      { status := "UNCLEAR"
        details := "Could not locate PAM in repair template"
        active_pams := [], shielded_pams := [], risk := "MODERATE" }

/-- Structural risk record consumed by
`regulator_tools.calculate_safety_score`, which reads only the
`risk_level` and `warnings` keys of the dictionary produced by
`analyze_structure_risk`. -/
structure StructureRisk where
  risk_level : String
  warnings : List String
  deriving Repr, DecidableEq

/-- Safety verdict record of `regulator_tools.calculate_safety_score`. -/
structure SafetyVerdict where
  score : Int
  risk_level : String
  recommendation : String
  issues : List String
  deriving Repr, DecidableEq

/-- Penalty step of the exon-hit loop of
`regulator_tools.calculate_safety_score`, folded over the accumulated
`(score, issues)` pair. -/
def exon_penalty_step (acc : Int × List String) (ot : OffTargetHit) : Int × List String :=
  if ot.mismatch_count ≤ 1 then
    (acc.1 - 50,
     acc.2 ++ ["HIGH RISK: Hits exon in " ++ ot.gene_name ++ " with " ++
       toString ot.mismatch_count ++ " mismatches"])
  else if ot.mismatch_count = 2 then
    (acc.1 - 30, acc.2 ++ ["MODERATE RISK: Hits exon in " ++ ot.gene_name ++ " with 2 mismatches"])
  else acc

/-- Step 2 of `regulator_tools.calculate_safety_score`: subtract 20 from
the running score when the PAM shield status is UNCLEAR. -/
def shield_unclear_adjust (pam_shield_status : ShieldResult) (acc : Int × List String) :
    Int × List String :=
  if pam_shield_status.status = "UNCLEAR" then
    (acc.1 - 20, acc.2 ++ ["WARNING: PAM shield status unclear"])
  else acc

/-- Step 3 of `regulator_tools.calculate_safety_score`: subtract 30 or
15 from the running score for a HIGH or MODERATE structural risk. -/
def structure_adjust (structural_risk : StructureRisk) (acc : Int × List String) :
    Int × List String :=
  if structural_risk.risk_level = "HIGH" then (acc.1 - 30, acc.2 ++ structural_risk.warnings)
  else if structural_risk.risk_level = "MODERATE" then
    (acc.1 - 15, acc.2 ++ structural_risk.warnings)
  else acc

/-- Final recommendation block of
`regulator_tools.calculate_safety_score`: maps the accumulated score to
a band and clamps the reported score with `max(0, score)`. -/
def band_verdict (acc : Int × List String) : SafetyVerdict :=
  if 80 ≤ acc.1 then
    { score := max 0 acc.1, risk_level := "LOW", recommendation := "APPROVE", issues := acc.2 }
  else if 60 ≤ acc.1 then
    { score := max 0 acc.1, risk_level := "MODERATE", recommendation := "WARNING", issues := acc.2 }
  else
    { score := max 0 acc.1, risk_level := "HIGH", recommendation := "REJECT", issues := acc.2 }

/-- Portion of `regulator_tools.calculate_safety_score` that runs after
the essential-hit short circuit: exon penalties, PAM shield check,
structural risk penalties and the final banding. -/
def safety_score_tail (exon_hits : List OffTargetHit) (pam_shield_status : ShieldResult)
    (structural_risk : StructureRisk) : SafetyVerdict :=
  let p := exon_hits.foldl exon_penalty_step ((100 : Int), ([] : List String))
  if pam_shield_status.status = "UNSHIELDED" then
    { score := 0, risk_level := "CRITICAL", recommendation := "REJECT"
      issues := p.2 ++ ["CRITICAL: PAM not properly shielded - will re-cut corrected DNA"] }
  else
    band_verdict (structure_adjust structural_risk (shield_unclear_adjust pam_shield_status p))

/-- Model of `regulator_tools.calculate_safety_score`: short-circuits to
a zero-score rejection on the first close essential-gene hit, otherwise
runs the penalty ladder of `safety_score_tail`. -/
def calculate_safety_score (off_targets : List OffTargetHit) (pam_shield_status : ShieldResult)
    (structural_risk : StructureRisk) (target_gene : String) : SafetyVerdict :=
  let exon_hits := off_targets.filter
    (fun ot => decide (ot.region_type = "EXON") && decide (ot.gene_name ≠ target_gene))
  let essential_hits := off_targets.filter
    (fun ot => ot.is_essential && decide (ot.gene_name ≠ target_gene))
  match essential_hits.find? (fun ot => decide (ot.mismatch_count ≤ 2)) with
  | some ot =>
    { score := 0, risk_level := "CRITICAL", recommendation := "REJECT"
      issues := ["CRITICAL: Hits essential gene " ++ ot.gene_name ++ " with " ++
        toString ot.mismatch_count ++ " mismatches"] }
  | none => safety_score_tail exon_hits pam_shield_status structural_risk

/- ======================================================================
   General helper lemmas
   ====================================================================== -/

lemma mem_intRange_bounds {a b x : Int} (h : x ∈ intRange a b) : a ≤ x ∧ x < b := by
  unfold intRange at h
  rw [List.mem_map] at h
  obtain ⟨k, hk, rfl⟩ := h
  rw [List.mem_range] at hk
  simp only [Int.ofNat_eq_natCast]
  omega

lemma hairpin_walk_le (s : List Char) (i fuel : Nat) : hairpin_walk s i fuel ≤ fuel := by
  induction fuel generalizing i with
  | zero => simp [hairpin_walk]
  | succ n ih =>
    unfold hairpin_walk
    split_ifs
    · have := ih (i + 1); omega
    · omega

lemma get_hairpin_count_le_half (s : List Char) : get_hairpin_count s ≤ s.length / 2 :=
  hairpin_walk_le s 0 (s.length / 2)

lemma apply_modifications_length (seq_chars : List Char) (start_idx mut_idx pam_idx : Int)
    (target_base : Char) :
    (apply_modifications seq_chars start_idx mut_idx pam_idx target_base).length =
      seq_chars.length := by
  unfold apply_modifications
  dsimp only
  split_ifs <;> simp

lemma pySlice_length_of_bounds {α : Type} (l : List α) (a b : Int) (ha : 0 ≤ a) (hab : a ≤ b)
    (hb : b ≤ (l.length : Int)) : ((pySlice l a b).length : Int) = b - a := by
  unfold pySlice pyIdx
  rw [if_neg (by omega), if_neg (by omega)]
  simp only [List.length_drop, List.length_take]
  omega

lemma exon_fold_fst_le (l : List OffTargetHit) (acc : Int × List String) :
    (l.foldl exon_penalty_step acc).1 ≤ acc.1 := by
  induction l generalizing acc with
  | nil => simp
  | cons a t ih =>
    refine le_trans (ih (exon_penalty_step acc a)) ?_
    unfold exon_penalty_step
    split_ifs <;> simp

lemma filterMap_ite_map {α β γ : Type} (p : α → Bool) (f : α → β) (g : β → γ) (l : List α) :
    (l.filterMap (fun a => if p a then some (f a) else none)).map g =
      (l.filter p).map (fun a => g (f a)) := by
  induction l with
  | nil => rfl
  | cons a t ih => by_cases h : p a <;> simp [h, ih]

lemma filter_orderedInsert_pos {α : Type} (r : α → α → Prop) [DecidableRel r] (p : α → Bool)
    (a : α) (l : List α) (ha : p a = true) (hskip : ∀ b, ¬ r a b → p b = false) :
    (List.orderedInsert r a l).filter p = a :: l.filter p := by
  induction l with
  | nil => simp [List.orderedInsert, ha]
  | cons b t ih =>
    by_cases hr : r a b
    · simp [List.orderedInsert, hr, ha]
    · have hb : p b = false := hskip b hr
      simp [List.orderedInsert, hr, hb, ih]

lemma filter_orderedInsert_neg {α : Type} (r : α → α → Prop) [DecidableRel r] (p : α → Bool)
    (a : α) (l : List α) (ha : p a = false) :
    (List.orderedInsert r a l).filter p = l.filter p := by
  induction l with
  | nil => simp [List.orderedInsert, ha]
  | cons b t ih =>
    by_cases hr : r a b
    · simp [List.orderedInsert, hr, ha]
    · by_cases hb : p b <;> simp [List.orderedInsert, hr, hb, ih]

/-- Stability of insertion sort, phrased through filters: the
subsequence of elements satisfying `p` is unchanged by sorting whenever
elements that compare strictly below a `p`-element never satisfy `p`
themselves (true in particular when `p` fixes the sort key). -/
lemma filter_insertionSort {α : Type} (r : α → α → Prop) [DecidableRel r] (p : α → Bool)
    (l : List α) (h : ∀ a b, p a = true → ¬ r a b → p b = false) :
    (List.insertionSort r l).filter p = l.filter p := by
  induction l with
  | nil => rfl
  | cons a t ih =>
    by_cases ha : p a
    · rw [List.insertionSort, filter_orderedInsert_pos r p a _ ha (fun b hb => h a b ha hb), ih]
      simp [List.filter_cons, ha]
    · rw [List.insertionSort,
        filter_orderedInsert_neg r p a _ (Bool.not_eq_true _ ▸ ha), ih]
      simp [List.filter_cons, ha]

/- ======================================================================
   Claim theorems
   ====================================================================== -/

/-- C8: for the empty sequence `calculate_gc_content` fails (the Python
source divides by `len(sequence)` with no guard, so the empty input
raises a division-by-zero error, modelled as `none`) rather than
returning a value, and for every non-empty sequence it returns
`(count(G) + count(C)) / length * 100` without failing. -/
theorem calculate_gc_content_spec (s : List Char) :
    (s = [] → calculate_gc_content s = none) ∧
    (s ≠ [] → calculate_gc_content s =
      some (((s.count 'G' : ℚ) + (s.count 'C' : ℚ)) / (s.length : ℚ) * 100)) := by
  constructor
  · intro h; subst h; rfl
  · intro h
    unfold calculate_gc_content
    rw [if_neg (by simpa using h)]

theorem calculate_gc_content_spec_witness :
    (['G'] ≠ ([] : List Char)) ∧ calculate_gc_content ['G'] =
      some (((['G'].count 'G' : ℚ) + (['G'].count 'C' : ℚ)) / ((['G'].length : ℚ)) * 100) :=
  ⟨by decide, (calculate_gc_content_spec ['G']).2 (by decide)⟩

/-- C9: whenever the repair template is empty or the PAM index is
`None`, `verify_pam_shield` returns the undocumented status N/A (the
function is total, so no exception is raised), and the three documented
statuses UNSHIELDED, VERIFIED, UNCLEAR are only ever produced for a
non-empty template with a present PAM index. -/
theorem verify_pam_shield_status_spec (t : List Char) (pam : Option Int) (mi : Int) :
    ((t = [] ∨ pam = none) → (verify_pam_shield t pam mi).status = "N/A") ∧
    (t ≠ [] → pam ≠ none →
      (verify_pam_shield t pam mi).status ∈ (["UNSHIELDED", "VERIFIED", "UNCLEAR"] : List String) ∧
      (verify_pam_shield t pam mi).status ≠ "N/A") := by
  constructor
  · intro h
    unfold verify_pam_shield
    rw [if_pos h]
  · intro h1 h2
    unfold verify_pam_shield
    rw [if_neg (by tauto)]
    dsimp only
    split_ifs <;> simp

theorem verify_pam_shield_status_spec_witness :
    (verify_pam_shield [] (some 100) 105).status = "N/A" ∧
    (verify_pam_shield ['T'] (some 100) 105).status ∈
      (["UNSHIELDED", "VERIFIED", "UNCLEAR"] : List String) :=
  ⟨(verify_pam_shield_status_spec [] (some 100) 105).1 (Or.inl rfl),
   ((verify_pam_shield_status_spec ['T'] (some 100) 105).2 (by decide) (by decide)).1⟩

/-- C4 counterexample: the claim states that the hairpin count reported
by the manufacturability check is the capped-at-6 hairpin walk and so
never exceeds 6, but `check_manufacturing` calls `get_hairpin_count`,
whose loop runs to half the sequence length with no cap of 6: on the
20-symbol spacer AAAAAAAAAATTTTTTTTTT it reports 10. -/
theorem check_manufacturing_hairpin_counterexample :
    Option.map ManufacturabilitySafety.hairpin_count
      (check_manufacturing (List.replicate 10 'A' ++ List.replicate 10 'T')) = some 10 ∧
    ¬ ((10 : Nat) ≤ 6) := by
  constructor
  · decide
  · decide

/-- C4 amended: for every spacer on which the manufacturability check
runs (the Python source indexes `sequence[-1]`, so the empty spacer
raises), the reported `hairpin_count` equals `get_hairpin_count` of the
spacer, the inward walk over complementary outer pairs capped at half
the spacer length, and in particular never exceeds `length / 2`. -/
theorem check_manufacturing_hairpin_spec (s : List Char) (r : ManufacturabilitySafety)
    (h : check_manufacturing s = some r) :
    r.hairpin_count = get_hairpin_count s ∧ r.hairpin_count ≤ s.length / 2 := by
  unfold check_manufacturing at h
  split_ifs at h with he
  have hr := Option.some.inj h
  subst hr
  exact ⟨rfl, get_hairpin_count_le_half s⟩

theorem check_manufacturing_hairpin_spec_witness :
    ManufacturabilitySafety.hairpin_count ⟨false, false, 1, 'T'⟩ = get_hairpin_count ['A', 'T'] ∧
    ManufacturabilitySafety.hairpin_count ⟨false, false, 1, 'T'⟩ ≤ ['A', 'T'].length / 2 :=
  check_manufacturing_hairpin_spec ['A', 'T'] ⟨false, false, 1, 'T'⟩ (by decide)

/-- C1: whenever some off-target hit is essential, lies in a gene other
than the target and has at most 2 mismatches, `calculate_safety_score`
returns score 0 with recommendation REJECT, regardless of the shield
status, the structural risk and all other hits. -/
theorem calculate_safety_score_essential_reject (off_targets : List OffTargetHit)
    (pam_shield_status : ShieldResult) (structural_risk : StructureRisk) (target_gene : String)
    (h : ∃ ot ∈ off_targets,
      ot.is_essential = true ∧ ot.gene_name ≠ target_gene ∧ ot.mismatch_count ≤ 2) :
    (calculate_safety_score off_targets pam_shield_status structural_risk target_gene).score = 0 ∧
    (calculate_safety_score off_targets pam_shield_status structural_risk
      target_gene).recommendation = "REJECT" := by
  obtain ⟨ot, hmem, he, hg, hm⟩ := h
  have hsome : ((off_targets.filter
      (fun ot => ot.is_essential && decide (ot.gene_name ≠ target_gene))).find?
      (fun ot => decide (ot.mismatch_count ≤ 2))).isSome := by
    rw [List.find?_isSome]
    exact ⟨ot, List.mem_filter.2 ⟨hmem, by simp [he, hg]⟩, by simpa using hm⟩
  obtain ⟨x, hx⟩ := Option.isSome_iff_exists.1 hsome
  unfold calculate_safety_score
  dsimp only
  rw [hx]
  exact ⟨rfl, rfl⟩

theorem calculate_safety_score_essential_reject_witness :
    (calculate_safety_score [⟨"Position 0", "TP53", "EXON", 1, ['A'], true, "hit"⟩]
      ⟨"VERIFIED", "", [], [], "NONE"⟩ ⟨"NONE", []⟩ "HBB").score = 0 ∧
    (calculate_safety_score [⟨"Position 0", "TP53", "EXON", 1, ['A'], true, "hit"⟩]
      ⟨"VERIFIED", "", [], [], "NONE"⟩ ⟨"NONE", []⟩ "HBB").recommendation = "REJECT" :=
  calculate_safety_score_essential_reject _ _ _ _ (by decide)

lemma shield_unclear_adjust_fst_le (pam : ShieldResult) (acc : Int × List String) :
    (shield_unclear_adjust pam acc).1 ≤ acc.1 := by
  unfold shield_unclear_adjust
  split_ifs <;> simp

lemma structure_adjust_fst_le (sr : StructureRisk) (acc : Int × List String) :
    (structure_adjust sr acc).1 ≤ acc.1 := by
  unfold structure_adjust
  split_ifs <;> simp

lemma band_verdict_spec (acc : Int × List String) (hle : acc.1 ≤ 100) :
    0 ≤ (band_verdict acc).score ∧ (band_verdict acc).score ≤ 100 ∧
    (band_verdict acc).recommendation =
      (if 80 ≤ (band_verdict acc).score then "APPROVE"
       else if 60 ≤ (band_verdict acc).score then "WARNING" else "REJECT") ∧
    ((band_verdict acc).recommendation = "APPROVE" ↔ (band_verdict acc).risk_level = "LOW") ∧
    ((band_verdict acc).recommendation = "WARNING" ↔ (band_verdict acc).risk_level = "MODERATE") ∧
    ((band_verdict acc).recommendation = "REJECT" ↔
      ((band_verdict acc).risk_level = "HIGH" ∨ (band_verdict acc).risk_level = "CRITICAL")) := by
  unfold band_verdict
  by_cases h1 : (80 : Int) ≤ acc.1
  · rw [if_pos h1]
    dsimp only
    refine ⟨le_max_left _ _, max_le (by norm_num) hle, ?_, by simp, by simp, by simp⟩
    rw [if_pos (le_max_of_le_right h1)]
  · rw [if_neg h1]
    by_cases h2 : (60 : Int) ≤ acc.1
    · rw [if_pos h2]
      dsimp only
      refine ⟨le_max_left _ _, max_le (by norm_num) hle, ?_, by simp, by simp, by simp⟩
      rw [if_neg (not_le.mpr (max_lt (by norm_num) (by omega))), if_pos (le_max_of_le_right h2)]
    · rw [if_neg h2]
      dsimp only
      refine ⟨le_max_left _ _, max_le (by norm_num) hle, ?_, by simp, by simp, by simp⟩
      rw [if_neg (not_le.mpr (max_lt (by norm_num) (by omega))),
        if_neg (not_le.mpr (max_lt (by norm_num) (by omega)))]

lemma safety_score_tail_spec (eh : List OffTargetHit) (pam : ShieldResult)
    (sr : StructureRisk) :
    0 ≤ (safety_score_tail eh pam sr).score ∧ (safety_score_tail eh pam sr).score ≤ 100 ∧
    (safety_score_tail eh pam sr).recommendation =
      (if 80 ≤ (safety_score_tail eh pam sr).score then "APPROVE"
       else if 60 ≤ (safety_score_tail eh pam sr).score then "WARNING" else "REJECT") ∧
    ((safety_score_tail eh pam sr).recommendation = "APPROVE" ↔
      (safety_score_tail eh pam sr).risk_level = "LOW") ∧
    ((safety_score_tail eh pam sr).recommendation = "WARNING" ↔
      (safety_score_tail eh pam sr).risk_level = "MODERATE") ∧
    ((safety_score_tail eh pam sr).recommendation = "REJECT" ↔
      ((safety_score_tail eh pam sr).risk_level = "HIGH" ∨
        (safety_score_tail eh pam sr).risk_level = "CRITICAL")) := by
  unfold safety_score_tail
  dsimp only
  by_cases hu : pam.status = "UNSHIELDED"
  · rw [if_pos hu]
    dsimp only
    refine ⟨le_refl 0, by norm_num, ?_, by simp, by simp, by simp⟩
    rw [if_neg (by norm_num), if_neg (by norm_num)]
  · rw [if_neg hu]
    have h1 : (eh.foldl exon_penalty_step ((100 : Int), ([] : List String))).1 ≤ 100 :=
      exon_fold_fst_le eh _
    have h2 := shield_unclear_adjust_fst_le pam (eh.foldl exon_penalty_step (100, []))
    have h3 := structure_adjust_fst_le sr (shield_unclear_adjust pam
      (eh.foldl exon_penalty_step (100, [])))
    exact band_verdict_spec _ (by omega)

/-- C7: the score of the verdict returned by `calculate_safety_score`
always lies in `[0, 100]`, the recommendation is the pure banding
function of the clamped score (at least 80 APPROVE, at least 60 WARNING,
otherwise REJECT, with the short-circuit rejections landing in the
REJECT band at score 0), and the risk level mirrors the recommendation
band (LOW for APPROVE, MODERATE for WARNING, HIGH or the short-circuit
CRITICAL for REJECT). -/
theorem calculate_safety_score_bounds (off_targets : List OffTargetHit)
    (pam_shield_status : ShieldResult) (structural_risk : StructureRisk) (target_gene : String) :
    0 ≤ (calculate_safety_score off_targets pam_shield_status structural_risk target_gene).score ∧
    (calculate_safety_score off_targets pam_shield_status structural_risk target_gene).score ≤ 100 ∧
    (calculate_safety_score off_targets pam_shield_status structural_risk
        target_gene).recommendation =
      (if 80 ≤ (calculate_safety_score off_targets pam_shield_status structural_risk
          target_gene).score then "APPROVE"
       else if 60 ≤ (calculate_safety_score off_targets pam_shield_status structural_risk
          target_gene).score then "WARNING" else "REJECT") ∧
    ((calculate_safety_score off_targets pam_shield_status structural_risk
        target_gene).recommendation = "APPROVE" ↔
      (calculate_safety_score off_targets pam_shield_status structural_risk
        target_gene).risk_level = "LOW") ∧
    ((calculate_safety_score off_targets pam_shield_status structural_risk
        target_gene).recommendation = "WARNING" ↔
      (calculate_safety_score off_targets pam_shield_status structural_risk
        target_gene).risk_level = "MODERATE") ∧
    ((calculate_safety_score off_targets pam_shield_status structural_risk
        target_gene).recommendation = "REJECT" ↔
      ((calculate_safety_score off_targets pam_shield_status structural_risk
          target_gene).risk_level = "HIGH" ∨
        (calculate_safety_score off_targets pam_shield_status structural_risk
          target_gene).risk_level = "CRITICAL")) := by
  unfold calculate_safety_score
  dsimp only
  cases hx : (off_targets.filter
      (fun ot => ot.is_essential && decide (ot.gene_name ≠ target_gene))).find?
      (fun ot => decide (ot.mismatch_count ≤ 2)) with
  | some ot =>
    refine ⟨le_refl 0, by norm_num, by norm_num, by simp, by simp, by simp⟩
  | none =>
    exact safety_score_tail_spec _ _ _

/-- C2: `blast_genome_search` emits exactly one hit for every window
start position in `[0, length(haystack) - length(spacer)]` whose
case-insensitive mismatch count is within the threshold and none for
any other position, in ascending position order (the right-hand side
enumerates the qualifying positions of the ascending range), and each
hit records that mismatch count and the matched window. -/
theorem blast_genome_search_spec (grna genome : List Char) (mm : Int) :
    (blast_genome_search grna genome mm).map (fun h => (h.location, h.mismatch_count, h.sequence)) =
      ((List.range (genome.length + 1 - grna.length)).filter
          (blast_qual (upper grna) (upper genome) mm)).map
        (fun i => ("Position " ++ toString i,
          count_mismatches (upper grna) (((upper genome).drop i).take grna.length),
          ((upper genome).drop i).take grna.length)) := by
  unfold blast_genome_search
  dsimp only
  rw [filterMap_ite_map (blast_qual (upper grna) (upper genome) mm)
    (blast_mk (upper grna) (upper genome) (annotate_genome_regions (upper genome)))
    (fun h => (h.location, h.mismatch_count, h.sequence))]
  simp [blast_mk, upper]

/-- Full description of the region lookup used by
`blast_genome_search` for an in-range position: the built-in tiling
resolves every position below the genome length to one of the four
fixed regions. -/
lemma get_region_tiling (g : List Char) (i : Nat) (hi : i < g.length) :
    get_region_at_position (i : Int) (annotate_genome_regions g) =
      (if i < 500 then ⟨"HBB", "EXON", "Beta-globin gene - oxygen transport"⟩
       else if i < 1000 then ⟨"HBD", "EXON", "Delta-globin - HBB paralog"⟩
       else if i < 2000 then ⟨"INTERGENIC_1", "INTERGENIC", "Non-coding region"⟩
       else ⟨"INTERGENIC_2", "INTERGENIC", "Non-coding region"⟩) := by
  unfold get_region_at_position annotate_genome_regions
  dsimp only
  by_cases h1 : i < 500
  · rw [if_pos h1]
    rw [List.singleton_append, List.cons_append, List.cons_append,
      List.find?_cons_of_pos _ (by simp; omega)]
  · rw [if_neg h1]
    have h5L : 500 < g.length := by omega
    rw [if_pos h5L, List.singleton_append, List.cons_append, List.cons_append,
      List.find?_cons_of_neg _ (by simp; omega)]
    by_cases h2 : i < 1000
    · rw [if_pos h2, List.singleton_append, List.cons_append,
        List.find?_cons_of_pos _ (by simp; omega)]
    · rw [if_neg h2]
      have h10L : 1000 < g.length := by omega
      rw [if_pos h10L, List.singleton_append, List.cons_append,
        List.find?_cons_of_neg _ (by simp; omega)]
      by_cases h3 : i < 2000
      · rw [if_pos h3, List.singleton_append,
          List.find?_cons_of_pos _ (by simp; omega)]
      · rw [if_neg h3]
        have h20L : 2000 < g.length := by omega
        rw [if_pos h20L, List.singleton_append,
          List.find?_cons_of_neg _ (by simp; omega),
          List.find?_cons_of_pos _ (by simp; omega)]

/-- C10 counterexample: with an empty spacer, `blast_genome_search`
emits a hit at position `len(haystack)` (the slide loop runs over
`range(len - 0 + 1)`), where the region lookup falls through to the
UNKNOWN fallback, so a hit can carry a gene name outside the four
built-in regions. -/
theorem blast_genome_search_regions_counterexample :
    (blast_genome_search [] ['A'] 3).length = 2 ∧
    ((blast_genome_search [] ['A'] 3).getD 1 default).gene_name = "UNKNOWN" ∧
    ((blast_genome_search [] ['A'] 3).getD 1 default).gene_name ∉
      (["HBB", "HBD", "INTERGENIC_1", "INTERGENIC_2"] : List String) := by
  refine ⟨by decide, by decide, by decide⟩

/-- C10 amended: for every hit emitted with a non-empty spacer, the
annotation comes from the fixed built-in tiling of the haystack: the
gene name is one of HBB, HBD, INTERGENIC_1, INTERGENIC_2 (so the
UNKNOWN fallback is unreachable), the region type is EXON or
INTERGENIC, `is_essential` holds exactly for HBB and HBD, and an
in-range position resolves to the gene of its tile ([0,500) HBB,
[500,1000) HBD, [1000,2000) INTERGENIC_1, [2000,len) INTERGENIC_2). -/
theorem blast_genome_search_regions (grna genome : List Char) (mm : Int) (hg : grna ≠ []) :
    (∀ h ∈ blast_genome_search grna genome mm,
      h.gene_name ∈ (["HBB", "HBD", "INTERGENIC_1", "INTERGENIC_2"] : List String) ∧
      (h.region_type = "EXON" ∨ h.region_type = "INTERGENIC") ∧
      (h.is_essential = true ↔ (h.gene_name = "HBB" ∨ h.gene_name = "HBD"))) ∧
    (∀ i : Nat, i < genome.length →
      (get_region_at_position (i : Int) (annotate_genome_regions (upper genome))).gene =
        (if i < 500 then "HBB" else if i < 1000 then "HBD"
         else if i < 2000 then "INTERGENIC_1" else "INTERGENIC_2")) := by
  have hlen : (upper genome).length = genome.length := by simp [upper]
  constructor
  · intro h hmem
    unfold blast_genome_search at hmem
    dsimp only at hmem
    rw [List.mem_filterMap] at hmem
    obtain ⟨i, hi, heq⟩ := hmem
    rw [List.mem_range] at hi
    split_ifs at heq with hq
    have hh := Option.some.inj heq
    subst hh
    have hglen : 1 ≤ (upper grna).length := by
      have : grna.length ≠ 0 := fun hc => hg (List.length_eq_zero.1 hc)
      simp [upper]; omega
    have hiod : i < genome.length := by omega
    unfold blast_mk
    dsimp only
    rw [get_region_tiling (upper genome) i (by omega)]
    split_ifs <;> exact ⟨by decide, by decide, by decide⟩
  · intro i hi
    rw [get_region_tiling (upper genome) i (by omega)]
    split_ifs <;> rfl

/-- C5: every candidate returned by `find_pam_sites` has
`cut_distance <= 15`, the list is sorted non-decreasing by
`cut_distance`, and candidates with equal `cut_distance` keep discovery
order (forward-strand matches before reverse-strand matches, each group
in ascending position order): for every distance value the equal-key
subsequence of the output coincides with the equal-key subsequence of
the concatenated discovery lists after the distance filter. -/
theorem find_pam_sites_spec (dna : List Char) (mutation_index window_size : Int) :
    (∀ c ∈ find_pam_sites dna mutation_index window_size, c.cut_distance ≤ 15) ∧
    List.Pairwise cdLE (find_pam_sites dna mutation_index window_size) ∧
    (∀ d : Int,
      (find_pam_sites dna mutation_index window_size).filter
          (fun c => decide (c.cut_distance = d)) =
        ((pam_forward_matches dna mutation_index window_size ++
            pam_reverse_matches dna mutation_index window_size).filter
            (fun c => decide (c.cut_distance ≤ 15))).filter
          (fun c => decide (c.cut_distance = d))) := by
  refine ⟨?_, ?_, ?_⟩
  · intro c hc
    unfold find_pam_sites at hc
    dsimp only at hc
    rw [List.mem_insertionSort, List.mem_filter] at hc
    simpa using hc.2
  · unfold find_pam_sites
    dsimp only
    exact List.sorted_insertionSort cdLE _
  · intro d
    unfold find_pam_sites
    dsimp only
    exact filter_insertionSort cdLE (fun c => decide (c.cut_distance = d)) _
      (fun a b ha hr => by
        unfold cdLE at hr
        simp only [decide_eq_true_eq] at ha
        simp only [decide_eq_false_iff_not]
        omega)

/-- Comparison of template candidates by hairpin score alone, used to
state monotonicity of the ranked output. -/
def hairpinLE (a b : TemplateCandidate) : Prop := a.hairpin_score ≤ b.hairpin_score

/-- C6: when the feasibility checks pass,
`generate_repair_template_options` returns exactly the first 3 of the
41 generated windows under the ascending stable order on the pair
`(hairpin_score, abs(left_arm_length - 60))`, hence at most 3
candidates whose hairpin scores are non-decreasing. -/
theorem generate_repair_template_options_spec (dna : List Char) (mutation_index pam_index : Int)
    (target_base : Char) (hfeas : check_pam_constraints dna pam_index = (false, false)) :
    (generate_repair_template_options dna mutation_index pam_index target_base).templates =
      (List.insertionSort tplLE
        (generate_candidates dna mutation_index pam_index target_base)).take 3 ∧
    (generate_candidates dna mutation_index pam_index target_base).length = 41 ∧
    (generate_repair_template_options dna mutation_index pam_index target_base).templates.length
      ≤ 3 ∧
    List.Pairwise hairpinLE
      (generate_repair_template_options dna mutation_index pam_index target_base).templates := by
  have htpl : (generate_repair_template_options dna mutation_index pam_index target_base).templates
      = (List.insertionSort tplLE
          (generate_candidates dna mutation_index pam_index target_base)).take 3 := by
    unfold generate_repair_template_options
    rw [hfeas]
    dsimp only
    rw [if_neg (by decide)]
  have hsorted : List.Pairwise tplLE
      (List.insertionSort tplLE (generate_candidates dna mutation_index pam_index target_base)) :=
    List.sorted_insertionSort tplLE _
  refine ⟨htpl, ?_, ?_, ?_⟩
  · simp only [generate_candidates, intRange, List.length_map, List.length_range]
    decide
  · rw [htpl, List.length_take]
    exact min_le_left _ _
  · rw [htpl]
    refine List.Pairwise.imp ?_ (List.Pairwise.sublist (List.take_sublist 3 _) hsorted)
    intro a b hab
    unfold tplLE at hab
    unfold hairpinLE
    rcases hab with h | ⟨h, _⟩
    · exact le_of_lt h
    · exact le_of_eq h

set_option maxRecDepth 4000 in
theorem generate_repair_template_options_spec_witness :
    (generate_repair_template_options (List.replicate 160 'A') 70 83 'A').templates =
      (List.insertionSort tplLE (generate_candidates (List.replicate 160 'A') 70 83 'A')).take 3 ∧
    (generate_candidates (List.replicate 160 'A') 70 83 'A').length = 41 ∧
    (generate_repair_template_options (List.replicate 160 'A') 70 83 'A').templates.length ≤ 3 ∧
    List.Pairwise hairpinLE
      (generate_repair_template_options (List.replicate 160 'A') 70 83 'A').templates :=
  generate_repair_template_options_spec (List.replicate 160 'A') 70 83 'A' (by decide)

theorem blast_genome_search_regions_witness :
    (((blast_genome_search ['A'] ['A'] 3).getD 0 default).gene_name ∈
        (["HBB", "HBD", "INTERGENIC_1", "INTERGENIC_2"] : List String) ∧
      (((blast_genome_search ['A'] ['A'] 3).getD 0 default).region_type = "EXON" ∨
        ((blast_genome_search ['A'] ['A'] 3).getD 0 default).region_type = "INTERGENIC") ∧
      (((blast_genome_search ['A'] ['A'] 3).getD 0 default).is_essential = true ↔
        (((blast_genome_search ['A'] ['A'] 3).getD 0 default).gene_name = "HBB" ∨
          ((blast_genome_search ['A'] ['A'] 3).getD 0 default).gene_name = "HBD"))) ∧
    (get_region_at_position ((0 : Nat) : Int) (annotate_genome_regions (upper ['A']))).gene =
      (if (0 : Nat) < 500 then "HBB" else if (0 : Nat) < 1000 then "HBD"
       else if (0 : Nat) < 2000 then "INTERGENIC_1" else "INTERGENIC_2") :=
  ⟨(blast_genome_search_regions ['A'] ['A'] 3 (by decide)).1 _ (by decide),
   (blast_genome_search_regions ['A'] ['A'] 3 (by decide)).2 0 (by decide)⟩

/-- Boolean test that every generated template window has sequence
length exactly 120. -/
def all_length_120 (l : List TemplateCandidate) : Bool :=
  l.all (fun c => c.sequence.length == 120)

set_option maxRecDepth 8000 in
/-- C3 counterexample: the 40-symbol context guard of
`check_pam_constraints` does not protect the extreme window shifts
(arms reach up to 80 symbols).  On a 120-symbol sequence with the PAM
at index 43 (cut site 40) the feasibility checks pass, yet the window
at shift +20 starts at the negative Python index -40, which wraps to
position 80 and produces an empty window instead of a 120-symbol
one. -/
theorem generate_candidates_window_length_counterexample :
    check_pam_constraints (List.replicate 120 'A') 43 = (false, false) ∧
    (generate_candidates (List.replicate 120 'A') 70 43 'A').length = 41 ∧
    ((generate_candidates (List.replicate 120 'A') 70 43 'A').getD 40 default).sequence.length
      = 0 := by
  refine ⟨by decide, by decide, by decide⟩

/-- C3 amended: when the feasibility checks pass and in addition the
cut site `pam_index - 3` has at least 80 symbols of context on each
side (80 being the largest homology arm the shift range produces,
rather than the 40 symbols the guard checks), every candidate window
generated by `generate_candidates` has sequence length exactly 120. -/
theorem generate_candidates_window_length (dna : List Char) (mut_idx pam_idx : Int)
    (target_base : Char) (hfeas : check_pam_constraints dna pam_idx = (false, false))
    (h80l : 80 ≤ pam_idx - 3) (h80r : pam_idx - 3 + 80 ≤ (dna.length : Int)) :
    all_length_120 (generate_candidates dna mut_idx pam_idx target_base) = true := by
  unfold all_length_120
  rw [List.all_eq_true]
  intro c hc
  unfold generate_candidates at hc
  dsimp only at hc
  rw [List.mem_map] at hc
  obtain ⟨shift, hs, rfl⟩ := hc
  have hb := mem_intRange_bounds hs
  dsimp only
  rw [beq_iff_eq, apply_modifications_length]
  have hlen := pySlice_length_of_bounds dna
    (pam_idx - 3 - ((120 : Int) / 2 + shift))
    (pam_idx - 3 + ((120 : Int) / 2 - shift))
    (by omega) (by omega) (by omega)
  omega

set_option maxRecDepth 4000 in
theorem generate_candidates_window_length_witness :
    all_length_120 (generate_candidates (List.replicate 160 'A') 70 83 'A') = true :=
  generate_candidates_window_length (List.replicate 160 'A') 70 83 'A'
    (by decide) (by decide) (by decide)

/-- Concrete 23-symbol sequence with one forward AGG motif and one
reverse CCA motif near position 10, used to exercise
`find_pam_sites`. -/
def pam_example_dna : List Char :=
  ['A', 'T', 'A', 'T', 'A', 'T', 'A', 'G', 'G', 'A', 'T', 'A',
   'T', 'C', 'C', 'A', 'T', 'A', 'T', 'A', 'T', 'A', 'T']

theorem find_pam_sites_spec_witness :
    ((find_pam_sites pam_example_dna 10 20).getD 0 default).cut_distance ≤ 15 :=
  (find_pam_sites_spec pam_example_dna 10 20).1 _ (by decide)
